import Mathlib

/-
Shallow embedding of the ECS core of the bideobame game engine
(src/game/source/core/game.rs, src/game/source/components/*,
src/game/source/systems/*).

Modelling conventions:
- f32 scalars are modelled as ℚ. Every numeric value exercised by the
  properties below (small integers, halves, and the sentinels f32::MAX /
  f32::MIN) is exactly representable in f32 and all operations performed on
  them (add, mul, compare) are exact at those values, so the rational model
  agrees with the IEEE semantics on every input the properties touch.
- glam's trigonometric functions (used by Mat4::from_euler) are external
  library code, not part of this repository; they are abstracted as an
  explicit pair of functions (a Trig interpretation).  Theorems that need
  their values constrain them only at 0, where f32 trig is exact
  (cos 0 = 1, sin 0 = 0).
- HashMap<EntityId, Vec<ComponentEnum>> is modelled as an association list
  with unique keys; iteration order of the Rust HashMap is unspecified, and
  the properties below only use order-insensitive consequences of
  whole-map iteration.
- The mutable references handed out by get_components_by_types_mut are
  modelled at the value level (the sequence of pointed-to components, in
  the order produced) and, for the aliasing property, at the pointer level
  (the sequence of element indices of the entity's component vector that
  the collected raw pointers address: two of the returned &mut alias the
  same memory iff they carry the same index).
-/

set_option autoImplicit false

namespace Bideobame

/-! ## Scalars and small linear algebra (geometry.rs, glam) -/

abbrev Scalar := ℚ

/-- f32::MAX, exactly: (2 - 2^-23) * 2^127. -/
def f32MAX : Scalar := 2 ^ 128 - 2 ^ 104

/-- f32::MIN = -f32::MAX. -/
def f32MIN : Scalar := -f32MAX

/-- The array type [f32; 3] (type Vector3 in geometry.rs), indices 0,1,2
as fields. -/
structure Vec3 where
  x : Scalar
  y : Scalar
  z : Scalar
deriving DecidableEq

/-- Interpretation of the external math library's f32 cosine and sine
(glam, used by Mat4::from_euler); abstract here because it is not code of
this repository.  Properties constrain it only at 0. -/
structure Trig where
  cos : Scalar → Scalar
  sin : Scalar → Scalar

/-- A 4x4 matrix, row i / column j; glam's Mat4 viewed abstractly as its
entries. -/
structure Mat4 where
  a00 : Scalar
  a01 : Scalar
  a02 : Scalar
  a03 : Scalar
  a10 : Scalar
  a11 : Scalar
  a12 : Scalar
  a13 : Scalar
  a20 : Scalar
  a21 : Scalar
  a22 : Scalar
  a23 : Scalar
  a30 : Scalar
  a31 : Scalar
  a32 : Scalar
  a33 : Scalar
deriving DecidableEq

namespace Mat4

/-- Matrix product (row-by-column). -/
def mul (A B : Mat4) : Mat4 where
  a00 := A.a00 * B.a00 + A.a01 * B.a10 + A.a02 * B.a20 + A.a03 * B.a30
  a01 := A.a00 * B.a01 + A.a01 * B.a11 + A.a02 * B.a21 + A.a03 * B.a31
  a02 := A.a00 * B.a02 + A.a01 * B.a12 + A.a02 * B.a22 + A.a03 * B.a32
  a03 := A.a00 * B.a03 + A.a01 * B.a13 + A.a02 * B.a23 + A.a03 * B.a33
  a10 := A.a10 * B.a00 + A.a11 * B.a10 + A.a12 * B.a20 + A.a13 * B.a30
  a11 := A.a10 * B.a01 + A.a11 * B.a11 + A.a12 * B.a21 + A.a13 * B.a31
  a12 := A.a10 * B.a02 + A.a11 * B.a12 + A.a12 * B.a22 + A.a13 * B.a32
  a13 := A.a10 * B.a03 + A.a11 * B.a13 + A.a12 * B.a23 + A.a13 * B.a33
  a20 := A.a20 * B.a00 + A.a21 * B.a10 + A.a22 * B.a20 + A.a23 * B.a30
  a21 := A.a20 * B.a01 + A.a21 * B.a11 + A.a22 * B.a21 + A.a23 * B.a31
  a22 := A.a20 * B.a02 + A.a21 * B.a12 + A.a22 * B.a22 + A.a23 * B.a32
  a23 := A.a20 * B.a03 + A.a21 * B.a13 + A.a22 * B.a23 + A.a23 * B.a33
  a30 := A.a30 * B.a00 + A.a31 * B.a10 + A.a32 * B.a20 + A.a33 * B.a30
  a31 := A.a30 * B.a01 + A.a31 * B.a11 + A.a32 * B.a21 + A.a33 * B.a31
  a32 := A.a30 * B.a02 + A.a31 * B.a12 + A.a32 * B.a22 + A.a33 * B.a32
  a33 := A.a30 * B.a03 + A.a31 * B.a13 + A.a32 * B.a23 + A.a33 * B.a33

instance : Mul Mat4 := ⟨Mat4.mul⟩

/-- glam Mat4::from_translation. -/
def from_translation (t : Vec3) : Mat4 where
  a00 := 1
  a01 := 0
  a02 := 0
  a03 := t.x
  a10 := 0
  a11 := 1
  a12 := 0
  a13 := t.y
  a20 := 0
  a21 := 0
  a22 := 1
  a23 := t.z
  a30 := 0
  a31 := 0
  a32 := 0
  a33 := 1

/-- glam Mat4::from_scale. -/
def from_scale (s : Vec3) : Mat4 where
  a00 := s.x
  a01 := 0
  a02 := 0
  a03 := 0
  a10 := 0
  a11 := s.y
  a12 := 0
  a13 := 0
  a20 := 0
  a21 := 0
  a22 := s.z
  a23 := 0
  a30 := 0
  a31 := 0
  a32 := 0
  a33 := 1

/-- Rotation about the x axis by angle a. -/
def rotX (trig : Trig) (a : Scalar) : Mat4 where
  a00 := 1
  a01 := 0
  a02 := 0
  a03 := 0
  a10 := 0
  a11 := trig.cos a
  a12 := -(trig.sin a)
  a13 := 0
  a20 := 0
  a21 := trig.sin a
  a22 := trig.cos a
  a23 := 0
  a30 := 0
  a31 := 0
  a32 := 0
  a33 := 1

/-- Rotation about the y axis by angle a. -/
def rotY (trig : Trig) (a : Scalar) : Mat4 where
  a00 := trig.cos a
  a01 := 0
  a02 := trig.sin a
  a03 := 0
  a10 := 0
  a11 := 1
  a12 := 0
  a13 := 0
  a20 := -(trig.sin a)
  a21 := 0
  a22 := trig.cos a
  a23 := 0
  a30 := 0
  a31 := 0
  a32 := 0
  a33 := 1

/-- Rotation about the z axis by angle a. -/
def rotZ (trig : Trig) (a : Scalar) : Mat4 where
  a00 := trig.cos a
  a01 := -(trig.sin a)
  a02 := 0
  a03 := 0
  a10 := trig.sin a
  a11 := trig.cos a
  a12 := 0
  a13 := 0
  a20 := 0
  a21 := 0
  a22 := 1
  a23 := 0
  a30 := 0
  a31 := 0
  a32 := 0
  a33 := 1

/-- glam Mat4::from_euler(EulerRot::XYZ, rx, ry, rz). -/
def from_euler (trig : Trig) (r : Vec3) : Mat4 :=
  rotX trig r.x * rotY trig r.y * rotZ trig r.z

/-- Multiply the matrix with the homogeneous point (p, 1) and truncate to
its xyz part (the position path through TransformComponent::apply_to_vertex:
extend(1.0), matrix multiply, truncate). -/
def apply_point (M : Mat4) (p : Vec3) : Vec3 where
  x := M.a00 * p.x + M.a01 * p.y + M.a02 * p.z + M.a03
  y := M.a10 * p.x + M.a11 * p.y + M.a12 * p.z + M.a13
  z := M.a20 * p.x + M.a21 * p.y + M.a22 * p.z + M.a23

end Mat4

/-- Vertex (geometry.rs): position, color, should_wave. -/
structure Vertex where
  position : Vec3
  color : Vec3
  should_wave : Nat
deriving DecidableEq

/-- BoundingBox (geometry.rs, used by collider_component.rs). -/
structure BoundingBox where
  min : Vec3
  max : Vec3
deriving DecidableEq

/-! ## Components (src/game/source/components/*) -/

/-- transform_component.rs: TransformComponent. -/
structure TransformComponent where
  position : Vec3
  rotation : Vec3
  scale : Vec3
  model_matrix : Mat4
deriving DecidableEq

namespace TransformComponent

/-- The model matrix the source recomputes in new() and
update_model_matrix(): from_translation * from_euler(XYZ) * from_scale. -/
def model_of (trig : Trig) (position rotation scale : Vec3) : Mat4 :=
  Mat4.from_translation position * Mat4.from_euler trig rotation *
    Mat4.from_scale scale

/-- TransformComponent::new. -/
def new (trig : Trig) (position rotation scale : Vec3) : TransformComponent where
  position := position
  rotation := rotation
  scale := scale
  model_matrix := model_of trig position rotation scale

/-- TransformComponent::update_model_matrix. -/
def update_model_matrix (trig : Trig) (t : TransformComponent) : TransformComponent :=
  { t with model_matrix := model_of trig t.position t.rotation t.scale }

/-- TransformComponent::translate: add to position componentwise, then
recompute the model matrix. -/
def translate (trig : Trig) (t : TransformComponent) (tr : Vec3) : TransformComponent :=
  update_model_matrix trig
    { t with position := { x := t.position.x + tr.x, y := t.position.y + tr.y,
                           z := t.position.z + tr.z } }

/-- TransformComponent::apply_to_vertex: clone the vertex, transform its
position by the model matrix (homogeneous multiply, truncate). -/
def apply_to_vertex (t : TransformComponent) (v : Vertex) : Vertex :=
  { v with position := t.model_matrix.apply_point v.position }

end TransformComponent

/-- movement_component.rs: MovementComponent (MovementComponent::new stores
the two vectors as given). -/
structure MovementComponent where
  velocity : Vec3
  acceleration : Vec3
deriving DecidableEq

/-- collider_component.rs: ColliderComponent. -/
structure ColliderComponent where
  aabb : Option BoundingBox
  obb : Option BoundingBox
  needs_aabb_update : Bool
  needs_obb_update : Bool
deriving DecidableEq

namespace ColliderComponent

/-- ColliderComponent::new. -/
def new : ColliderComponent where
  aabb := none
  obb := none
  needs_aabb_update := true
  needs_obb_update := true

/-- ColliderComponent::invalidate_bounds. -/
def invalidate_bounds (c : ColliderComponent) : ColliderComponent :=
  { c with needs_aabb_update := true, needs_obb_update := true }

end ColliderComponent

/-- mesh_component.rs: MeshComponent.  wgpu buffer handles are modelled as
renderer-issued allocation ids (Nat). -/
structure MeshComponent where
  vertex_buffer : Option Nat
  index_buffer : Option Nat
  num_indices : Nat
  needs_rebuffer : Bool
  last_vertices : Option (List Vertex)
  last_indices : Option (List Nat)
deriving DecidableEq

namespace MeshComponent

/-- MeshComponent::new. -/
def new (vertices : List Vertex) (indices : List Nat) : MeshComponent where
  vertex_buffer := none
  index_buffer := none
  num_indices := indices.length
  needs_rebuffer := true
  last_vertices := some vertices
  last_indices := some indices

end MeshComponent

/-! ## ComponentType / ComponentEnum (game.rs lines 23-49) -/

/-- game.rs: enum ComponentType. -/
inductive ComponentType where
  | Mesh
  | Transform
  | Movement
  | Collider
deriving DecidableEq

/-- game.rs: enum ComponentEnum holding the concrete component of each
kind. -/
inductive ComponentEnum where
  | mesh (m : MeshComponent)
  | transform (t : TransformComponent)
  | movement (m : MovementComponent)
  | collider (c : ColliderComponent)
deriving DecidableEq

namespace ComponentEnum

/-- ComponentEnum::component_type. -/
def component_type : ComponentEnum → ComponentType
  | mesh _ => ComponentType.Mesh
  | transform _ => ComponentType.Transform
  | movement _ => ComponentType.Movement
  | collider _ => ComponentType.Collider

/-- Projection used to state properties: the transform payload, if any. -/
def transformOf : ComponentEnum → Option TransformComponent
  | transform t => some t
  | _ => none

/-- Projection used to state properties: the movement payload, if any. -/
def movementOf : ComponentEnum → Option MovementComponent
  | movement m => some m
  | _ => none

/-- Projection used to state properties: the collider payload, if any. -/
def colliderOf : ComponentEnum → Option ColliderComponent
  | collider c => some c
  | _ => none

/-- Projection used to state properties: the mesh payload, if any. -/
def meshOf : ComponentEnum → Option MeshComponent
  | mesh m => some m
  | _ => none

end ComponentEnum

/-! ## ComponentStorage (game.rs lines 52-170)

HashMap<EntityId, Vec<ComponentEnum>> modelled as an association list with
unique keys (the Rust map's keys are unique; its iteration order is
unspecified and the association-list order stands in for it). -/

abbrev EntityId := Nat

abbrev ComponentStorage := List (EntityId × List ComponentEnum)

namespace ComponentStorage

/-- HashMap::get: the component vector of an entity, if present. -/
def lookup (s : ComponentStorage) (e : EntityId) : Option (List ComponentEnum) :=
  (s.find? (fun p => p.1 == e)).map (fun p => p.2)

/-- ComponentStorage::add_component:
`self.components.entry(entity).or_default().push(component)` — append to
the entity's vector, creating the entry if absent. -/
def add_component (s : ComponentStorage) (e : EntityId) (c : ComponentEnum) :
    ComponentStorage :=
  if s.any (fun p => p.1 == e) then
    s.map (fun p => if p.1 == e then (p.1, p.2 ++ [c]) else p)
  else
    s ++ [(e, [c])]

/-- ComponentStorage::get_entity_components. -/
def get_entity_components (s : ComponentStorage) (e : EntityId) :
    Option (List ComponentEnum) :=
  lookup s e

/-- ComponentStorage::get_entity_component_by_type: first component of the
entity's vector whose kind matches. -/
def get_entity_component_by_type (s : ComponentStorage) (e : EntityId)
    (ty : ComponentType) : Option ComponentEnum :=
  (lookup s e).bind (fun cs => cs.find? (fun c => decide (c.component_type = ty)))

/-- ComponentStorage::get_entities_with_components: ids of the entities in
the component map owning at least one component of every required kind. -/
def get_entities_with_components (s : ComponentStorage)
    (required_types : List ComponentType) : List EntityId :=
  (s.filter (fun p =>
      required_types.all (fun ty =>
        p.2.any (fun c => decide (c.component_type = ty))))).map (fun p => p.1)

/-- ComponentStorage::get_components_by_types_mut, at the value level: the
sequence of components the returned mutable references point at, in the
order produced (the entity's vector filtered to the requested kinds,
keeping the vector's own order). -/
def get_components_by_types_mut (s : ComponentStorage) (e : EntityId)
    (types : List ComponentType) : List ComponentEnum :=
  match lookup s e with
  | some comps =>
      comps.filter (fun c => types.any (fun ty => decide (ty = c.component_type)))
  | none => []

/-- ComponentStorage::get_components_by_types_mut, at the pointer level:
the element indices of the entity's component vector addressed by the raw
pointers the function collects and then turns back into mutable
references.  Two of the returned references alias the same memory iff the
same index occurs twice here. -/
def get_components_by_types_mut_ptrs (s : ComponentStorage) (e : EntityId)
    (types : List ComponentType) : List Nat :=
  match lookup s e with
  | some comps =>
      (comps.enum.filter
        (fun p => types.any (fun ty => decide (ty = p.2.component_type)))).map
        (fun p => p.1)
  | none => []

/-- ComponentStorage::get_component_mut followed by a mutation through the
returned reference: rewrite the first component of the entity's vector
satisfying the predicate (a no-op when none does). -/
def updateFirst (p : ComponentEnum → Bool) (f : ComponentEnum → ComponentEnum) :
    List ComponentEnum → List ComponentEnum
  | [] => []
  | c :: cs => if p c then f c :: cs else c :: updateFirst p f cs

/-- Mutation of one entity's component vector in place (writing through
references obtained from the storage for that entity). -/
def updateEntry (s : ComponentStorage) (e : EntityId)
    (f : List ComponentEnum → List ComponentEnum) : ComponentStorage :=
  s.map (fun p => if p.1 == e then (p.1, f p.2) else p)

end ComponentStorage

/-! ## Entity (game.rs lines 172-188) -/

/-- game.rs: struct Entity. -/
structure Entity where
  id : EntityId
deriving DecidableEq

/-- Entity::generate_id: `NEXT_ID.fetch_add(1, Ordering::SeqCst)` on a
static AtomicU32 starting at 0 — returns the current counter value and
stores the incremented value, wrapping at 2^32 (u32 arithmetic). -/
def generate_id (counter : Nat) : Nat × Nat :=
  (counter, (counter + 1) % 2 ^ 32)

/-- The ids produced by n successive Entity::new calls starting from a
given counter state. -/
def genIds : Nat → Nat → List Nat
  | 0, _ => []
  | Nat.succ n, c => (generate_id c).1 :: genIds n (generate_id c).2

/-! ## GameState and World (game.rs lines 196-380, state.rs) -/

/-- Modelled from the spec: the GameState frame clock (accumulated total
time, last-frame delta) referenced by game.rs line 201 and read by the
systems as `state.total_time` / `state.delta_time`; its defining module is
not among the sources (state.rs holds the wgpu surface State instead). -/
structure GameState where
  total_time : Scalar
  delta_time : Scalar
deriving DecidableEq

namespace GameState

/-- Modelled from the spec: GameState::new — fresh frame clock. -/
def new : GameState where
  total_time := 0
  delta_time := 0

/-- Modelled from the spec: `advance(delta_time)` updates the accumulated
total time and stores the delta for this frame. -/
def advance (st : GameState) (dt : Scalar) : GameState where
  total_time := st.total_time + dt
  delta_time := dt

end GameState

/-- Opaque token standing for one boxed `dyn System` in the World's system
lists; what a system does when run is supplied separately as a semantics
function, mirroring dynamic dispatch. -/
abbrev SysId := Nat

/-- Mock of the renderer collaborator as seen by the core: create_buffer
hands out fresh handles and logs each allocation/upload request's byte
size. -/
structure Renderer where
  next_buffer_id : Nat
  requests : List Nat
deriving DecidableEq

namespace Renderer

/-- Device::create_buffer (+ the mapped-at-creation upload): returns a
fresh handle and records the request. -/
def create_buffer (r : Renderer) (size : Nat) : Nat × Renderer :=
  (r.next_buffer_id,
   { next_buffer_id := r.next_buffer_id + 1, requests := r.requests ++ [size] })

end Renderer

/-- game.rs: struct World. -/
structure World where
  entities : List (EntityId × Entity)
  component_storage : ComponentStorage
  update_systems : List SysId
  draw_systems : List SysId
  state : GameState
deriving DecidableEq

namespace World

/-- World::new. -/
def new : World where
  entities := []
  component_storage := []
  update_systems := []
  draw_systems := []
  state := GameState.new

/-- World::insert_entity: HashMap::insert keyed by the entity's id
(replaces the value if the key is present). -/
def insert_entity (w : World) (ent : Entity) : World :=
  { w with entities :=
      if w.entities.any (fun p => p.1 == ent.id) then
        w.entities.map (fun p => if p.1 == ent.id then (p.1, ent) else p)
      else
        w.entities ++ [(ent.id, ent)] }

/-- World::add_component. -/
def add_component (w : World) (e : EntityId) (c : ComponentEnum) : World :=
  { w with component_storage := w.component_storage.add_component e c }

/-- World::add_update_system. -/
def add_update_system (w : World) (s : SysId) : World :=
  { w with update_systems := w.update_systems ++ [s] }

/-- World::add_draw_system. -/
def add_draw_system (w : World) (s : SysId) : World :=
  { w with draw_systems := w.draw_systems ++ [s] }

/-- World::get_entity_component_by_type. -/
def get_entity_component_by_type (w : World) (e : EntityId)
    (ty : ComponentType) : Option ComponentEnum :=
  w.component_storage.get_entity_component_by_type e ty

/-- World::get_entities_with_components. -/
def get_entities_with_components (w : World)
    (required_types : List ComponentType) : List EntityId :=
  w.component_storage.get_entities_with_components required_types

/-- World::get_entity_components_mut (delegates to
ComponentStorage::get_components_by_types_mut), value level. -/
def get_entity_components_mut (w : World) (e : EntityId)
    (types : List ComponentType) : List ComponentEnum :=
  w.component_storage.get_components_by_types_mut e types

/-- Modelled from the spec: World.advance(delta_time) — the once-per-frame
clock update (`advance → run_update_systems → run_draw_systems`); its
defining code is not among the sources. -/
def advance (w : World) (dt : Scalar) : World :=
  { w with state := w.state.advance dt }

/-- World::run_update_systems: `mem::take` the systems list, run each
system (which receives mutable World and Renderer access, here an
arbitrary semantics `step` for the boxed systems), then write the taken
list back. -/
def run_update_systems (step : SysId → World → Renderer → World × Renderer)
    (w : World) (r : Renderer) : World × Renderer :=
  let systems := w.update_systems
  let start : World × Renderer := ({ w with update_systems := [] }, r)
  let result := systems.foldl (fun acc s => step s acc.1 acc.2) start
  ({ result.1 with update_systems := systems }, result.2)

/-- World::run_draw_systems, same shape as run_update_systems. -/
def run_draw_systems (step : SysId → World → Renderer → World × Renderer)
    (w : World) (r : Renderer) : World × Renderer :=
  let systems := w.draw_systems
  let start : World × Renderer := ({ w with draw_systems := [] }, r)
  let result := systems.foldl (fun acc s => step s acc.1 acc.2) start
  ({ result.1 with draw_systems := systems }, result.2)

end World

/-! ## MovementSystem (systems/movement_system.rs) -/

namespace MovementSystem

open ComponentStorage

/-- One loop iteration of MovementSystem::run on one entity's component
vector: read the first Movement component's velocity and acceleration (the
entity is skipped when there is none); translate the first Transform by
velocity×dt and, if that succeeded, invalidate the first Collider's
bounds; finally add acceleration×dt to the first Movement component's
velocity. -/
def step_entity (trig : Trig) (dt : Scalar) (comps : List ComponentEnum) :
    List ComponentEnum :=
  match comps.find? (fun c => decide (c.component_type = ComponentType.Movement)) with
  | some (ComponentEnum.movement mv) =>
      let comps1 :=
        if (comps.find? (fun c =>
              decide (c.component_type = ComponentType.Transform))).isSome then
          let translated :=
            updateFirst (fun c => decide (c.component_type = ComponentType.Transform))
              (fun c =>
                match c with
                | ComponentEnum.transform t =>
                    ComponentEnum.transform
                      (t.translate trig
                        { x := mv.velocity.x * dt, y := mv.velocity.y * dt,
                          z := mv.velocity.z * dt })
                | other => other) comps
          updateFirst (fun c => decide (c.component_type = ComponentType.Collider))
            (fun c =>
              match c with
              | ComponentEnum.collider col =>
                  ComponentEnum.collider col.invalidate_bounds
              | other => other) translated
        else comps
      updateFirst (fun c => decide (c.component_type = ComponentType.Movement))
        (fun c =>
          match c with
          | ComponentEnum.movement m2 =>
              ComponentEnum.movement
                { m2 with velocity :=
                    { x := m2.velocity.x + mv.acceleration.x * dt,
                      y := m2.velocity.y + mv.acceleration.y * dt,
                      z := m2.velocity.z + mv.acceleration.z * dt } }
          | other => other) comps1
  | _ => comps

/-- MovementSystem::run: materialize the {Transform, Movement} query, read
delta_time once, then process each matched entity in turn. -/
def run (trig : Trig) (w : World) : World :=
  let entities := w.get_entities_with_components
    [ComponentType.Transform, ComponentType.Movement]
  let dt := w.state.delta_time
  let storage := entities.foldl
    (fun s e => updateEntry s e (step_entity trig dt)) w.component_storage
  { w with component_storage := storage }

end MovementSystem

/-! ## CollisionSystem (systems/collision_system.rs) -/

namespace CollisionSystem

open ComponentStorage

/-- CollisionSystem::calculate_aabb: per-axis running min/max of every
mesh vertex transformed by the model matrix, starting from f32::MAX /
f32::MIN.  (The source unwraps mesh.last_vertices; the vertex list is
passed here already extracted.) -/
def calculate_aabb (vertices : List Vertex) (t : TransformComponent) :
    BoundingBox :=
  let acc := vertices.foldl
    (fun (acc : Vec3 × Vec3) v =>
      let tv := t.apply_to_vertex v
      ({ x := if tv.position.x < acc.1.x then tv.position.x else acc.1.x,
         y := if tv.position.y < acc.1.y then tv.position.y else acc.1.y,
         z := if tv.position.z < acc.1.z then tv.position.z else acc.1.z },
       { x := if tv.position.x > acc.2.x then tv.position.x else acc.2.x,
         y := if tv.position.y > acc.2.y then tv.position.y else acc.2.y,
         z := if tv.position.z > acc.2.z then tv.position.z else acc.2.z }))
    ({ x := f32MAX, y := f32MAX, z := f32MAX },
     { x := f32MIN, y := f32MIN, z := f32MIN })
  { min := acc.1, max := acc.2 }

/-- First loop body of CollisionSystem::run on one entity: destructure the
multi-kind mutable fetch positionally as [Collider, Transform, Mesh] (the
entity is silently skipped when the filtered sequence has any other
shape), and if the collider's dirty flag is set, store the recomputed aabb
through the collider reference and clear the flag. -/
def step_entity (comps : List ComponentEnum) : List ComponentEnum :=
  let picked := comps.filter (fun c =>
    [ComponentType.Collider, ComponentType.Transform,
      ComponentType.Mesh].any (fun ty => decide (ty = c.component_type)))
  match picked with
  | [ComponentEnum.collider col, ComponentEnum.transform t, ComponentEnum.mesh m] =>
      if col.needs_aabb_update then
        updateFirst (fun c => decide (c.component_type = ComponentType.Collider))
          (fun c =>
            match c with
            | ComponentEnum.collider _ =>
                ComponentEnum.collider
                  { col with
                    aabb := some (calculate_aabb (m.last_vertices.getD []) t),
                    needs_aabb_update := false }
            | other => other) comps
      else comps
  | _ => comps

/-- CollisionSystem::run: materialize the {Collider, Transform, Mesh}
query, then run the aabb-maintenance loop over it.  The second (pairwise
collision) loop re-fetches components but its whole body is commented out
in the source, so it mutates nothing and is omitted. -/
def run (w : World) : World :=
  let entities := w.get_entities_with_components
    [ComponentType.Collider, ComponentType.Transform, ComponentType.Mesh]
  let storage := entities.foldl
    (fun s e => updateEntry s e step_entity) w.component_storage
  { w with component_storage := storage }

end CollisionSystem

/-! ## MeshBufferer (systems/mesh_bufferer_system.rs) -/

namespace MeshBufferer

/-- size_of::<Vertex>() = 3*4 + 3*4 + 4 bytes. -/
def vertexByteSize : Nat := 28

/-- size_of::<u16>(). -/
def u16ByteSize : Nat := 2

/-- MeshBufferer::run's body for one component: for a Mesh whose buffer
handle is absent and whose needs_rebuffer flag is set, request a vertex
and an index buffer from the renderer (sized from the mesh's stored
payload), store the returned handles, clear the flag and refresh
num_indices; every other component is untouched. -/
def step_component (r : Renderer) (c : ComponentEnum) : ComponentEnum × Renderer :=
  match c with
  | ComponentEnum.mesh m =>
      if m.vertex_buffer.isNone then
        if m.needs_rebuffer then
          let vertices := m.last_vertices.getD []
          let indices := m.last_indices.getD []
          let vb := r.create_buffer (vertexByteSize * vertices.length)
          let ib := vb.2.create_buffer (u16ByteSize * indices.length)
          (ComponentEnum.mesh
            { m with vertex_buffer := some vb.1, index_buffer := some ib.1,
                     needs_rebuffer := false, num_indices := indices.length },
           ib.2)
        else (c, r)
      else (c, r)
  | other => (other, r)

/-- Process one entity's component vector, threading the renderer. -/
def step_components (r : Renderer) :
    List ComponentEnum → List ComponentEnum × Renderer
  | [] => ([], r)
  | c :: cs =>
      let p := step_component r c
      let rest := step_components p.2 cs
      (p.1 :: rest.1, rest.2)

/-- Walk the whole component storage, threading the renderer. -/
def step_storage (r : Renderer) :
    ComponentStorage → ComponentStorage × Renderer
  | [] => ([], r)
  | (e, cs) :: rest =>
      let p := step_components r cs
      let tail := step_storage p.2 rest
      ((e, p.1) :: tail.1, tail.2)

/-- MeshBufferer::run: iterate every component vector in the storage map
and buffer each dirty, not-yet-buffered mesh component through the
renderer. -/
def run (w : World) (r : Renderer) : World × Renderer :=
  let p := step_storage r w.component_storage
  ({ w with component_storage := p.1 }, p.2)

end MeshBufferer

/-! ## Fixtures: concrete inputs used by witnesses and counterexamples -/

/-- A concrete Trig interpretation (cos constantly 1, sin constantly 0);
it agrees with f32 trig at angle 0, the only angle the properties use. -/
def trigOne : Trig where
  cos := fun _ => 1
  sin := fun _ => 0

/-- A concrete identity transform (position 0, rotation 0, scale 1). -/
def transformEx : TransformComponent :=
  TransformComponent.new trigOne ⟨0, 0, 0⟩ ⟨0, 0, 0⟩ ⟨1, 1, 1⟩

/-- A concrete movement component (velocity (1,0,0), acceleration
(0,-1,0)). -/
def movementEx : MovementComponent where
  velocity := ⟨1, 0, 0⟩
  acceleration := ⟨0, -1, 0⟩

/-- A storage in which entity 0 owns a Transform and then a Collider, in
that insertion order. -/
def storageTC : ComponentStorage :=
  [(0, [ComponentEnum.transform transformEx,
        ComponentEnum.collider ColliderComponent.new])]

/-- A world holding storageTC. -/
def worldTC : World :=
  { World.new with component_storage := storageTC }

/-- A world with one inserted entity (id 0) and no components at all. -/
def worldOnlyEntity : World :=
  World.new.insert_entity ⟨0⟩

/-! ## C10 — systems registered during run_*_systems are discarded -/

/-- C10: whatever the systems do when dispatched (any semantics `step`,
including ones that call add_update_system / add_draw_system on the World
mid-run), run_update_systems and run_draw_systems write the taken-out list
back afterwards, so the systems list after the call equals the list as it
was at the start of the call. -/
theorem run_systems_restore_registration_list
    (stepu stepd : SysId → World → Renderer → World × Renderer)
    (w : World) (r : Renderer) :
    (World.run_update_systems stepu w r).1.update_systems = w.update_systems ∧
    (World.run_draw_systems stepd w r).1.draw_systems = w.draw_systems :=
  ⟨rfl, rfl⟩

/-! ## C9 — World.advance updates the frame clock and nothing else -/

/-- C9: for every delta_time ≥ 0, advance adds it to the accumulated total
time, stores it as the last-frame delta, and leaves the entities, the
component storage and both system lists unchanged.  (GameState and advance
are modelled from the spec; their defining module is absent from the
sources.) -/
theorem world_advance_updates_clock (w : World) (dt : Scalar) (h : 0 ≤ dt) :
    (w.advance dt).state.total_time = w.state.total_time + dt ∧
    (w.advance dt).state.delta_time = dt ∧
    (w.advance dt).entities = w.entities ∧
    (w.advance dt).component_storage = w.component_storage ∧
    (w.advance dt).update_systems = w.update_systems ∧
    (w.advance dt).draw_systems = w.draw_systems :=
  ⟨rfl, rfl, rfl, rfl, rfl, rfl⟩

/-- C9 witness: advance at the fresh world with delta 1. -/
theorem world_advance_updates_clock_witness :
    (0 : Scalar) ≤ 1 ∧
    ((World.new.advance 1).state.total_time = World.new.state.total_time + 1 ∧
     (World.new.advance 1).state.delta_time = 1 ∧
     (World.new.advance 1).entities = World.new.entities ∧
     (World.new.advance 1).component_storage = World.new.component_storage ∧
     (World.new.advance 1).update_systems = World.new.update_systems ∧
     (World.new.advance 1).draw_systems = World.new.draw_systems) :=
  ⟨by norm_num, world_advance_updates_clock World.new 1 (by norm_num)⟩

/-! ## C4 — the empty-requirement query -/

/-- C4 counterexample: entity 0 has been created (inserted into the World)
and never removed, yet the empty-kind query returns nothing, because
get_entities_with_components iterates the component map, which has no
entry for a component-less entity. -/
theorem empty_query_misses_componentless_entity :
    worldOnlyEntity.entities.map Prod.fst = [0] ∧
    worldOnlyEntity.get_entities_with_components [] = [] :=
  ⟨rfl, rfl⟩

/-- C4 amended: the query with an empty required-kind set returns exactly
the entity ids that have an entry in the component storage (the entities
that have had at least one component added), not all created entities;
a created entity owning no components is absent. -/
theorem empty_query_eq_storage_keys (w : World) :
    w.get_entities_with_components [] = w.component_storage.map Prod.fst := by
  simp [World.get_entities_with_components,
    ComponentStorage.get_entities_with_components]

/-! ## C1 — order of the multi-kind mutable fetch -/

/-- C1 counterexample: entity 0 owns both requested kinds, stored as
[Transform, Collider]; requesting [Collider, Transform] returns the
components in storage order, not in the input kind order the claim
states. -/
theorem mut_fetch_not_input_kind_ordered :
    (ComponentStorage.get_components_by_types_mut storageTC 0
        [ComponentType.Collider, ComponentType.Transform]).map
      ComponentEnum.component_type =
      [ComponentType.Transform, ComponentType.Collider] ∧
    [ComponentType.Transform, ComponentType.Collider] ≠
      [ComponentType.Collider, ComponentType.Transform] :=
  ⟨rfl, by decide⟩

/-- C1 amended: for every entity id and requested kind list, the
multi-kind mutable fetch returns the matching components in the entity's
storage (insertion) order — the result is a sublist of the entity's
component vector containing exactly the components whose kind is
requested; kinds the entity does not own are simply absent. -/
theorem get_entity_components_mut_storage_order (w : World) (e : EntityId)
    (types : List ComponentType) :
    (w.get_entity_components_mut e types).Sublist
      ((w.component_storage.get_entity_components e).getD []) ∧
    (∀ c ∈ w.get_entity_components_mut e types, c.component_type ∈ types) ∧
    (∀ c ∈ (w.component_storage.get_entity_components e).getD [],
      c.component_type ∈ types → c ∈ w.get_entity_components_mut e types) := by
  unfold World.get_entity_components_mut
    ComponentStorage.get_components_by_types_mut
    ComponentStorage.get_entity_components
  cases ComponentStorage.lookup w.component_storage e with
  | none =>
      refine ⟨List.nil_sublist _, ?_, ?_⟩ <;> simp
  | some comps =>
      refine ⟨List.filter_sublist comps, ?_, ?_⟩
      · intro c hc
        rcases List.of_mem_filter hc with h
        rcases List.any_eq_true.mp h with ⟨ty, hty, hdec⟩
        rcases of_decide_eq_true hdec with h2
        simpa [h2] using hty
      · intro c hc hty
        refine List.mem_filter.mpr ⟨hc, ?_⟩
        exact List.any_eq_true.mpr ⟨c.component_type, hty, by simp⟩

/-- C1 amended, witness: the storage-order fact at the concrete two-kind
fixture. -/
theorem get_entity_components_mut_storage_order_witness :
    (worldTC.get_entity_components_mut 0
        [ComponentType.Collider, ComponentType.Transform]).Sublist
      ((worldTC.component_storage.get_entity_components 0).getD []) ∧
    (∀ c ∈ worldTC.get_entity_components_mut 0
        [ComponentType.Collider, ComponentType.Transform],
      c.component_type ∈ [ComponentType.Collider, ComponentType.Transform]) ∧
    (∀ c ∈ (worldTC.component_storage.get_entity_components 0).getD [],
      c.component_type ∈ [ComponentType.Collider, ComponentType.Transform] →
        c ∈ worldTC.get_entity_components_mut 0
          [ComponentType.Collider, ComponentType.Transform]) :=
  get_entity_components_mut_storage_order worldTC 0
    [ComponentType.Collider, ComponentType.Transform]

/-! ## C2 — the returned mutable references never alias -/

/-- C2: under the claim's assumptions (pairwise-distinct requested kinds,
at most one component of each kind on the entity), the element indices
addressed by the raw pointers that get_components_by_types_mut collects
and dereferences are pairwise distinct, so no two of the returned mutable
references point at the same component.  (The index list is Nodup even
without the assumptions: the pointers come from iter_mut over distinct
vector slots.) -/
theorem mut_fetch_no_aliasing (s : ComponentStorage) (e : EntityId)
    (types : List ComponentType)
    (htypes : types.Pairwise (· ≠ ·))
    (hone : ∀ ty : ComponentType,
      ((ComponentStorage.lookup s e).getD []).countP
        (fun c => decide (c.component_type = ty)) ≤ 1) :
    (ComponentStorage.get_components_by_types_mut_ptrs s e types).Nodup := by
  unfold ComponentStorage.get_components_by_types_mut_ptrs
  cases ComponentStorage.lookup s e with
  | none => simp
  | some comps =>
      have hsub : ((comps.enum.filter
          (fun p => types.any (fun ty => decide (ty = p.2.component_type)))).map
            Prod.fst).Sublist (comps.enum.map Prod.fst) :=
        (List.filter_sublist comps.enum).map Prod.fst
      exact hsub.nodup (List.nodup_enum_map_fst comps)

/-- C2 witness: the no-aliasing fact at the concrete two-kind fixture. -/
theorem mut_fetch_no_aliasing_witness :
    ([ComponentType.Collider, ComponentType.Transform].Pairwise (· ≠ ·)) ∧
    (ComponentStorage.get_components_by_types_mut_ptrs storageTC 0
      [ComponentType.Collider, ComponentType.Transform]).Nodup :=
  ⟨by decide,
   mut_fetch_no_aliasing storageTC 0
     [ComponentType.Collider, ComponentType.Transform] (by decide)
     (by intro ty; cases ty <;> decide)⟩

/-! ## C5 — movement system integration order -/

/-- The claim's C5 scenario: entity 0 owns a Transform at position (0,0,0)
(identity rotation and scale) and a Movement with velocity (1,0,0) and
acceleration (0,-1,0); the frame clock holds delta_time = 1. -/
def movementWorld (trig : Trig) : World :=
  { World.new with
    component_storage :=
      [(0, [ComponentEnum.transform
              (TransformComponent.new trig ⟨0, 0, 0⟩ ⟨0, 0, 0⟩ ⟨1, 1, 1⟩),
            ComponentEnum.movement movementEx])],
    state := { total_time := 0, delta_time := 1 } }

/-- C5: one run of the movement system with delta_time = 1 moves
Transform.position to (1,0,0) — the position update uses the pre-update
velocity — and only afterwards integrates acceleration into the velocity,
leaving Movement.velocity = (1,-1,0). -/
theorem movement_system_euler_order (trig : Trig) :
    (((MovementSystem.run trig
          (movementWorld trig)).component_storage.get_entity_component_by_type
        0 ComponentType.Transform).bind ComponentEnum.transformOf).map
      TransformComponent.position = some ⟨1, 0, 0⟩ ∧
    (((MovementSystem.run trig
          (movementWorld trig)).component_storage.get_entity_component_by_type
        0 ComponentType.Movement).bind ComponentEnum.movementOf).map
      MovementComponent.velocity = some ⟨1, -1, 0⟩ := by
  constructor
  · show some (⟨0 + 1 * 1, 0 + 0 * 1, 0 + 0 * 1⟩ : Vec3) =
      some (⟨1, 0, 0⟩ : Vec3)
    norm_num
  · show some (⟨1 + 0 * 1, 0 + -1 * 1, 0 + 0 * 1⟩ : Vec3) =
      some (⟨1, -1, 0⟩ : Vec3)
    norm_num

/-! ## C6 — collision system aabb recompute -/

/-- The cube-corner vertices of the claim's C6 scenario. -/
def vertexLow : Vertex where
  position := ⟨-1, -1, -1⟩
  color := ⟨0, 0, 0⟩
  should_wave := 0

def vertexHigh : Vertex where
  position := ⟨1, 1, 1⟩
  color := ⟨0, 0, 0⟩
  should_wave := 0

/-- The C6 mesh: exactly the two opposite cube corners. -/
def meshEx : MeshComponent := MeshComponent.new [vertexLow, vertexHigh] [0, 1]

/-- The claim's C6 scenario: entity 0 owns a fresh Collider (dirty flag
set), an identity Transform and the two-corner Mesh, in the storage order
the collision system's positional destructure expects. -/
def collisionWorld (trig : Trig) : World :=
  { World.new with
    component_storage :=
      [(0, [ComponentEnum.collider ColliderComponent.new,
            ComponentEnum.transform
              (TransformComponent.new trig ⟨0, 0, 0⟩ ⟨0, 0, 0⟩ ⟨1, 1, 1⟩),
            ComponentEnum.mesh meshEx])] }

/-- What the claim's second C6 scenario does between the two runs:
translate the entity's Transform by (5,0,0) through
TransformComponent::translate and set the collider's aabb dirty flag
again. -/
def translateAndRedirty (trig : Trig) (w : World) : World :=
  { w with component_storage :=
      ComponentStorage.updateEntry w.component_storage 0 (fun cs =>
        ComponentStorage.updateFirst
          (fun c => decide (c.component_type = ComponentType.Collider))
          (fun c =>
            match c with
            | ComponentEnum.collider col =>
                ComponentEnum.collider { col with needs_aabb_update := true }
            | other => other)
          (ComponentStorage.updateFirst
            (fun c => decide (c.component_type = ComponentType.Transform))
            (fun c =>
              match c with
              | ComponentEnum.transform t =>
                  ComponentEnum.transform (t.translate trig ⟨5, 0, 0⟩)
              | other => other) cs)) }

/-- Observation used to state C6: the aabb and dirty flag of entity 0's
collider. -/
def colliderStateOf (w : World) : Option (Option BoundingBox × Bool) :=
  ((w.component_storage.get_entity_component_by_type 0
      ComponentType.Collider).bind ComponentEnum.colliderOf).map
    (fun c => (c.aabb, c.needs_aabb_update))

/-- Helper: unfold the Mul instance on Mat4. -/
theorem Mat4.mul_def (A B : Mat4) : A * B = Mat4.mul A B := rfl

/-- Helper: with zero rotation and unit scale the model matrix is the pure
translation matrix (using cos 0 = 1, sin 0 = 0, exact also in f32). -/
theorem model_of_zero_rot (trig : Trig) (hcos : trig.cos 0 = 1)
    (hsin : trig.sin 0 = 0) (p : Vec3) :
    TransformComponent.model_of trig p ⟨0, 0, 0⟩ ⟨1, 1, 1⟩ =
      Mat4.from_translation p := by
  simp [TransformComponent.model_of, Mat4.from_euler, Mat4.rotX, Mat4.rotY,
    Mat4.rotZ, Mat4.from_translation, Mat4.from_scale, Mat4.mul_def,
    Mat4.mul, hcos, hsin]

/-- Helper: TransformComponent::new with zero rotation and unit scale. -/
theorem transform_new_zero_rot (trig : Trig) (hcos : trig.cos 0 = 1)
    (hsin : trig.sin 0 = 0) (p : Vec3) :
    TransformComponent.new trig p ⟨0, 0, 0⟩ ⟨1, 1, 1⟩ =
      { position := p, rotation := ⟨0, 0, 0⟩, scale := ⟨1, 1, 1⟩,
        model_matrix := Mat4.from_translation p } := by
  unfold TransformComponent.new
  rw [model_of_zero_rot trig hcos hsin]

/-- Helper: TransformComponent::translate on a zero-rotation unit-scale
transform adds the translation to the position and rebuilds the pure
translation matrix. -/
theorem translate_zero_rot (trig : Trig) (hcos : trig.cos 0 = 1)
    (hsin : trig.sin 0 = 0) (p d : Vec3) (M : Mat4) :
    TransformComponent.translate trig ⟨p, ⟨0, 0, 0⟩, ⟨1, 1, 1⟩, M⟩ d =
      { position := ⟨p.x + d.x, p.y + d.y, p.z + d.z⟩,
        rotation := ⟨0, 0, 0⟩, scale := ⟨1, 1, 1⟩,
        model_matrix :=
          Mat4.from_translation ⟨p.x + d.x, p.y + d.y, p.z + d.z⟩ } := by
  unfold TransformComponent.translate TransformComponent.update_model_matrix
  simp only
  rw [model_of_zero_rot trig hcos hsin]

/-- Helper: TransformComponent::translate by (5,0,0) on the concrete
identity transform. -/
theorem translate_five (trig : Trig) (hcos : trig.cos 0 = 1)
    (hsin : trig.sin 0 = 0) :
    TransformComponent.translate trig
        ⟨⟨0, 0, 0⟩, ⟨0, 0, 0⟩, ⟨1, 1, 1⟩, Mat4.from_translation ⟨0, 0, 0⟩⟩
        ⟨5, 0, 0⟩ =
      { position := ⟨5, 0, 0⟩, rotation := ⟨0, 0, 0⟩, scale := ⟨1, 1, 1⟩,
        model_matrix := Mat4.from_translation ⟨5, 0, 0⟩ } := by
  rw [translate_zero_rot trig hcos hsin]
  norm_num

/-- Helper: the aabb of the two cube corners under the identity model
matrix. -/
theorem aabb_box_ident :
    CollisionSystem.calculate_aabb [vertexLow, vertexHigh]
      { position := ⟨0, 0, 0⟩, rotation := ⟨0, 0, 0⟩, scale := ⟨1, 1, 1⟩,
        model_matrix := Mat4.from_translation ⟨0, 0, 0⟩ } =
      { min := ⟨-1, -1, -1⟩, max := ⟨1, 1, 1⟩ } := by
  norm_num [CollisionSystem.calculate_aabb, TransformComponent.apply_to_vertex,
    Mat4.apply_point, Mat4.from_translation, vertexLow, vertexHigh,
    f32MAX, f32MIN, List.foldl]

/-- Helper: the aabb of the two cube corners under translation by
(5,0,0). -/
theorem aabb_box_shift :
    CollisionSystem.calculate_aabb [vertexLow, vertexHigh]
      { position := ⟨5, 0, 0⟩, rotation := ⟨0, 0, 0⟩, scale := ⟨1, 1, 1⟩,
        model_matrix := Mat4.from_translation ⟨5, 0, 0⟩ } =
      { min := ⟨4, -1, -1⟩, max := ⟨6, 1, 1⟩ } := by
  norm_num [CollisionSystem.calculate_aabb, TransformComponent.apply_to_vertex,
    Mat4.apply_point, Mat4.from_translation, vertexLow, vertexHigh,
    f32MAX, f32MIN, List.foldl]

/-- C6: one collision-system run on the two-corner mesh under the identity
transform stores aabb {min (-1,-1,-1), max (1,1,1)} and clears the dirty
flag; after translating the transform by (5,0,0) and setting the flag
again, a second run stores aabb {min (4,-1,-1), max (6,1,1)}. -/
theorem collision_aabb_recompute (trig : Trig) (hcos : trig.cos 0 = 1)
    (hsin : trig.sin 0 = 0) :
    colliderStateOf (CollisionSystem.run (collisionWorld trig)) =
      some (some { min := ⟨-1, -1, -1⟩, max := ⟨1, 1, 1⟩ }, false) ∧
    colliderStateOf
        (CollisionSystem.run
          (translateAndRedirty trig
            (CollisionSystem.run (collisionWorld trig)))) =
      some (some { min := ⟨4, -1, -1⟩, max := ⟨6, 1, 1⟩ }, false) := by
  constructor
  · show some (some (CollisionSystem.calculate_aabb [vertexLow, vertexHigh]
        (TransformComponent.new trig ⟨0, 0, 0⟩ ⟨0, 0, 0⟩ ⟨1, 1, 1⟩)), false) =
      some (some { min := ⟨-1, -1, -1⟩, max := ⟨1, 1, 1⟩ }, false)
    rw [transform_new_zero_rot trig hcos hsin, aabb_box_ident]
  · show some (some (CollisionSystem.calculate_aabb [vertexLow, vertexHigh]
        (TransformComponent.translate trig
          (TransformComponent.new trig ⟨0, 0, 0⟩ ⟨0, 0, 0⟩ ⟨1, 1, 1⟩)
          ⟨5, 0, 0⟩)), false) =
      some (some { min := ⟨4, -1, -1⟩, max := ⟨6, 1, 1⟩ }, false)
    rw [transform_new_zero_rot trig hcos hsin, translate_five trig hcos hsin,
      aabb_box_shift]

/-- C6 witness: the concrete Trig interpretation trigOne satisfies the two
trig hypotheses, and the aabb facts hold at it. -/
theorem collision_aabb_recompute_witness :
    trigOne.cos 0 = 1 ∧ trigOne.sin 0 = 0 ∧
    (colliderStateOf (CollisionSystem.run (collisionWorld trigOne)) =
       some (some { min := ⟨-1, -1, -1⟩, max := ⟨1, 1, 1⟩ }, false) ∧
     colliderStateOf
         (CollisionSystem.run
           (translateAndRedirty trigOne
             (CollisionSystem.run (collisionWorld trigOne)))) =
       some (some { min := ⟨4, -1, -1⟩, max := ⟨6, 1, 1⟩ }, false)) :=
  ⟨rfl, rfl, collision_aabb_recompute trigOne rfl rfl⟩

/-! ## C3 — add_component then lookup and query -/

/-- Helper: find?-by-key commutes with the keyed in-place map used by
add_component's entry(..).or_default() branch. -/
theorem find?_map_keyed (e : EntityId) (f : List ComponentEnum → List ComponentEnum) :
    ∀ s : ComponentStorage,
      (s.map (fun p => if p.1 == e then (p.1, f p.2) else p)).find?
          (fun p => p.1 == e) =
        (s.find? (fun p => p.1 == e)).map (fun p => (p.1, f p.2))
  | [] => by simp
  | p :: rest => by
    cases hpe : (p.1 == e) with
    | true => simp [List.find?, hpe]
    | false => simpa [List.find?, hpe] using find?_map_keyed e f rest

/-- Helper: find?-by-key on append of a fresh entry. -/
theorem find?_append_keyed (e : EntityId) (cs : List ComponentEnum)
    (s : ComponentStorage) (h : s.find? (fun p => p.1 == e) = none) :
    (s ++ [(e, cs)]).find? (fun p => p.1 == e) = some (e, cs) := by
  rw [List.find?_append, h]
  simp [List.find?]

/-- Helper: after add_component, the entity's map entry is its old
component vector (empty when absent) with the new component appended. -/
theorem find?_add_component (s : ComponentStorage) (e : EntityId)
    (c : ComponentEnum) :
    (s.add_component e c).find? (fun p => p.1 == e) =
      some (e, ((ComponentStorage.lookup s e).getD []) ++ [c]) := by
  unfold ComponentStorage.add_component
  by_cases hany : (s.any (fun p => p.1 == e)) = true
  · rw [if_pos hany]
    rw [find?_map_keyed e (fun cs => cs ++ [c]) s]
    rcases List.any_eq_true.mp hany with ⟨p, hp, hpe⟩
    have hsome : (s.find? (fun p => p.1 == e)).isSome :=
      List.find?_isSome.mpr ⟨p, hp, hpe⟩
    rcases Option.isSome_iff_exists.mp hsome with ⟨q, hq⟩
    have hqe : q.1 = e := by
      have hb := List.find?_some hq
      exact eq_of_beq hb
    rw [hq]
    simp [ComponentStorage.lookup, hq, hqe]
  · rw [if_neg hany]
    have hanyf : s.any (fun p => p.1 == e) = false :=
      Bool.eq_false_iff.mpr hany
    have hnone : s.find? (fun p => p.1 == e) = none := by
      rw [List.find?_eq_none]
      intro p hp
      exact List.any_eq_false.mp hanyf p hp
    rw [find?_append_keyed e _ s hnone]
    simp [ComponentStorage.lookup, hnone]

/-- C3: if entity E owns no component of kind K and c has kind K, then
after add_component(E, c) the single-kind lookup returns c and E matches
the query requiring K. -/
theorem add_component_get_query (s : ComponentStorage) (e : EntityId)
    (c : ComponentEnum)
    (hnone : s.get_entity_component_by_type e c.component_type = none) :
    (s.add_component e c).get_entity_component_by_type e c.component_type =
      some c ∧
    e ∈ (s.add_component e c).get_entities_with_components
      [c.component_type] := by
  have hfind := find?_add_component s e c
  have hold : ((ComponentStorage.lookup s e).getD []).find?
      (fun x => decide (x.component_type = c.component_type)) = none := by
    unfold ComponentStorage.get_entity_component_by_type at hnone
    cases hl : ComponentStorage.lookup s e with
    | none => simp
    | some cs => rw [hl] at hnone; simpa using hnone
  constructor
  · unfold ComponentStorage.get_entity_component_by_type
      ComponentStorage.lookup
    rw [hfind]
    simp [List.find?_append, hold, List.find?]
  · have hmem : (e, ((ComponentStorage.lookup s e).getD []) ++ [c]) ∈
        s.add_component e c := List.mem_of_find?_eq_some hfind
    unfold ComponentStorage.get_entities_with_components
    refine List.mem_map.mpr
      ⟨(e, ((ComponentStorage.lookup s e).getD []) ++ [c]),
       List.mem_filter.mpr ⟨hmem, ?_⟩, rfl⟩
    simp [List.any_append]

/-- C3 witness: adding a movement component to entity 0 in the empty
storage. -/
theorem add_component_get_query_witness :
    (ComponentStorage.get_entity_component_by_type ([] : ComponentStorage) 0
        (ComponentEnum.movement movementEx).component_type = none) ∧
    ((ComponentStorage.add_component ([] : ComponentStorage) 0
        (ComponentEnum.movement movementEx)).get_entity_component_by_type 0
        (ComponentEnum.movement movementEx).component_type =
      some (ComponentEnum.movement movementEx) ∧
     0 ∈ (ComponentStorage.add_component ([] : ComponentStorage) 0
        (ComponentEnum.movement movementEx)).get_entities_with_components
        [(ComponentEnum.movement movementEx).component_type]) :=
  ⟨rfl, add_component_get_query ([] : ComponentStorage) 0
    (ComponentEnum.movement movementEx) rfl⟩

/-! ## C8 — entity id generation -/

/-- Helper: closed form of the id sequence while the counter state is a
valid u32 value. -/
theorem genIds_formula :
    ∀ (n c : Nat), c < 2 ^ 32 →
      genIds n c = (List.range n).map (fun i => (c + i) % 2 ^ 32)
  | 0, _, _ => by simp [genIds]
  | Nat.succ n, c, hc => by
    have hc2 : (c + 1) % 2 ^ 32 < 2 ^ 32 := Nat.mod_lt _ (by norm_num)
    have ih := genIds_formula n ((c + 1) % 2 ^ 32) hc2
    rw [genIds, List.range_succ_eq_map]
    simp only [generate_id, List.map_cons, List.map_map]
    rw [ih]
    refine congrArg₂ List.cons ?_ ?_
    · exact (Nat.mod_eq_of_lt hc).symm
    · refine List.map_congr_left ?_
      intro i _
      simp [Function.comp, Nat.mod_add_mod, Nat.succ_eq_add_one]
      ring_nf

/-- C8 counterexample: at N = 2^32 + 1 successive creations the AtomicU32
counter wraps and the first id (0) is issued again, so the ids are not
pairwise distinct. -/
theorem entity_ids_wrap_at_2_pow_32 :
    ¬ (genIds (2 ^ 32 + 1) 0).Nodup := by
  rw [genIds_formula _ 0 (by norm_num)]
  intro h
  have hinj := List.inj_on_of_nodup_map h
  have h0 : (0 : ℕ) ∈ List.range (2 ^ 32 + 1) :=
    List.mem_range.mpr (by norm_num)
  have h1 : (2 ^ 32 : ℕ) ∈ List.range (2 ^ 32 + 1) :=
    List.mem_range.mpr (by norm_num)
  have heq : (0 : ℕ) = 2 ^ 32 :=
    hinj h0 h1 (by simp [Nat.mod_self])
  norm_num at heq

/-- C8 amended: creating N ≤ 2^32 entities in sequence from process start
yields N pairwise-distinct ids that are strictly increasing in creation
order (so no id is reused within the first 2^32 creations); beyond that
the u32 counter wraps. -/
theorem entity_ids_distinct_increasing (n : Nat) (h : n ≤ 2 ^ 32) :
    (genIds n 0).Pairwise (· < ·) ∧ (genIds n 0).Nodup := by
  have heq : genIds n 0 = List.range n := by
    rw [genIds_formula n 0 (by norm_num)]
    have hpt : ∀ i ∈ List.range n, (0 + i) % 2 ^ 32 = i := by
      intro i hi
      have hi2 : i < 2 ^ 32 := lt_of_lt_of_le (List.mem_range.mp hi) h
      omega
    rw [List.map_congr_left hpt]
    simp
  rw [heq]
  exact ⟨List.pairwise_lt_range n, List.nodup_range n⟩

/-- C8 witness: three creations from process start. -/
theorem entity_ids_distinct_increasing_witness :
    3 ≤ 2 ^ 32 ∧
    ((genIds 3 0).Pairwise (· < ·) ∧ (genIds 3 0).Nodup) :=
  ⟨by norm_num, entity_ids_distinct_increasing 3 (by norm_num)⟩

/-! ## C7 — mesh buffering happens at most once per dirty mark -/

/-- Helper: a component that has been through the bufferer once is left
untouched by a second pass, whatever the renderer state has become. -/
theorem step_component_second_noop (r r2 : Renderer) (c : ComponentEnum) :
    MeshBufferer.step_component r2 (MeshBufferer.step_component r c).1 =
      ((MeshBufferer.step_component r c).1, r2) := by
  cases c with
  | mesh m =>
      by_cases hvb : m.vertex_buffer.isNone
      · by_cases hnb : m.needs_rebuffer
        · simp [MeshBufferer.step_component, hvb, hnb]
        · simp [MeshBufferer.step_component, hvb, hnb]
      · simp [MeshBufferer.step_component, hvb]
  | transform t => rfl
  | movement m => rfl
  | collider c => rfl

/-- Helper: second pass over one component vector is a no-op. -/
theorem step_components_second_noop (r r2 : Renderer)
    (cs : List ComponentEnum) :
    MeshBufferer.step_components r2 (MeshBufferer.step_components r cs).1 =
      ((MeshBufferer.step_components r cs).1, r2) := by
  induction cs generalizing r r2 with
  | nil => rfl
  | cons c cs ih =>
      simp only [MeshBufferer.step_components]
      rw [step_component_second_noop, ih]

/-- Helper: second pass over the whole storage is a no-op. -/
theorem step_storage_second_noop (r r2 : Renderer) (s : ComponentStorage) :
    MeshBufferer.step_storage r2 (MeshBufferer.step_storage r s).1 =
      ((MeshBufferer.step_storage r s).1, r2) := by
  induction s generalizing r r2 with
  | nil => rfl
  | cons p rest ih =>
      simp only [MeshBufferer.step_storage]
      rw [step_components_second_noop, ih]

/-- C7: running the mesh bufferer a second time with no intervening
mutation is a no-op — the renderer receives no further allocation or
upload requests (its state, including the request log, is unchanged) and
every component, in particular every MeshComponent, is left exactly as the
first run left it. -/
theorem mesh_bufferer_second_run_noop (w : World) (r : Renderer) :
    MeshBufferer.run (MeshBufferer.run w r).1 (MeshBufferer.run w r).2 =
      MeshBufferer.run w r := by
  unfold MeshBufferer.run
  simp only
  rw [step_storage_second_noop]

end Bideobame
